import Mathlib

/-!
Shallow embedding of the go-proxy-server core (main.go): the Basic-auth
gate (authenticateRequest), the plain HTTP relay (handleHTTP), the CONNECT
tunnel relay (handleHTTPS) and the dispatcher (ServeHTTP).

Go strings and header values are modelled as byte lists (List Nat, each
entry a byte value).  http.Header is modelled as an association list from
canonical header keys to the ordered list of values for that key; Go's
map has unique keys, captured by the wellFormed predicate where needed.
Network effects (the outbound HTTP client, the TCP dial, the hijack
capability) are supplied by explicit oracle records, and each handler
returns the full client-observable outcome plus the side effects it
attempted.
-/

/-- Byte strings: a Go string / byte slice as its list of byte values. -/
abbrev ByteStr := List Nat

/-- Bytes of a Lean string literal (all literals used are ASCII). -/
def strBytes (s : String) : ByteStr := s.data.map Char.toNat

/-- Go header map: ordered association list, key to ordered value list. -/
abbrev HeaderMap := List (String × List ByteStr)

/-- Keys of a header map, in order. -/
def hkeys (h : HeaderMap) : List String := h.map Prod.fst

/-- A header map modelling a Go map: unique keys, no empty value list. -/
def wellFormed (h : HeaderMap) : Prop :=
  (hkeys h).Nodup ∧ ∀ kv ∈ h, kv.2 ≠ ([] : List ByteStr)

instance : DecidablePred wellFormed := fun h => by
  unfold wellFormed; infer_instance

/-- Header lookup: the whole value list of a key (Go `h[k]`). -/
def hget : HeaderMap → String → Option (List ByteStr)
  | [], _ => none
  | (k', vs) :: rest, k => if k' = k then some vs else hget rest k

/-- Go `Header.Get`: first value of the key, empty string when absent. -/
def headerGetFirst (h : HeaderMap) (k : String) : ByteStr :=
  match hget h k with
  | none => []
  | some [] => []
  | some (v :: _) => v

/-- Go `Header.Del`: remove the key. -/
def hdel : HeaderMap → String → HeaderMap
  | [], _ => []
  | (k', vs) :: rest, k =>
      if k' = k then hdel rest k else (k', vs) :: hdel rest k

/-- Go `Header.Set`: replace the key's values with the single value. -/
def hset : HeaderMap → String → ByteStr → HeaderMap
  | [], k, v => [(k, [v])]
  | (k', vs) :: rest, k, v =>
      if k' = k then (k, [v]) :: rest else (k', vs) :: hset rest k v

/-- Go `Header.Add`: append one value to the key's value list. -/
def hadd : HeaderMap → String → ByteStr → HeaderMap
  | [], k, v => [(k, [v])]
  | (k', vs) :: rest, k, v =>
      if k' = k then (k', vs ++ [v]) :: rest else (k', vs) :: hadd rest k v

/-- Inner loop of the header-copy in handleHTTP: add every value of one key. -/
def addValues (dst : HeaderMap) (k : String) : List ByteStr → HeaderMap
  | [] => dst
  | v :: vs => addValues (hadd dst k v) k vs

/-- The header-copy loops of handleHTTP
(`for name, values := range src { for _, value := range values { dst.Add } }`). -/
def copyHeaders : HeaderMap → HeaderMap → HeaderMap
  | [], dst => dst
  | (k, vs) :: rest, dst => copyHeaders rest (addValues dst k vs)

/-- Value of one base64 standard-alphabet character (A-Z a-z 0-9 + /). -/
def b64Val (c : Nat) : Option Nat :=
  if 65 ≤ c ∧ c ≤ 90 then some (c - 65)
  else if 97 ≤ c ∧ c ≤ 122 then some (c - 97 + 26)
  else if 48 ≤ c ∧ c ≤ 57 then some (c - 48 + 52)
  else if c = 43 then some 62
  else if c = 47 then some 63
  else none

/-- Go's base64 decoder skips carriage returns and newlines anywhere. -/
def stripNewlines (l : ByteStr) : ByteStr :=
  l.filter (fun c => decide (c ≠ 13) && decide (c ≠ 10))

/-- Decode newline-free input in four-character quanta, '=' (byte 61)
padding allowed only at the very end, as Go's StdEncoding does (Go does
not check that unused trailing bits are zero). -/
def decodeQuanta : ByteStr → Option ByteStr
  | [] => some []
  | a :: b :: c :: d :: rest =>
    match b64Val a, b64Val b with
    | some va, some vb =>
      if c = 61 then
        if d = 61 ∧ rest = [] then some [va * 4 + vb / 16] else none
      else
        match b64Val c with
        | some vc =>
          if d = 61 then
            if rest = [] then some [va * 4 + vb / 16, (vb % 16) * 16 + vc / 4]
            else none
          else
            match b64Val d with
            | some vd =>
              match decodeQuanta rest with
              | some bs =>
                  some ([va * 4 + vb / 16, (vb % 16) * 16 + vc / 4,
                         (vc % 4) * 64 + vd] ++ bs)
              | none => none
            | none => none
        | none => none
    | _, _ => none
  | _ => none

/-- Go `base64.StdEncoding.DecodeString`. -/
def goBase64Decode (l : ByteStr) : Option ByteStr :=
  decodeQuanta (stripNewlines l)

/-- Go `strings.SplitN(s, sep, 2)`: split at the first separator only;
a one-element list when the separator does not occur. -/
def splitN2 (sep : Nat) (l : ByteStr) : List ByteStr :=
  if sep ∈ l then
    [l.takeWhile (fun c => decide (c ≠ sep)),
     (l.dropWhile (fun c => decide (c ≠ sep))).drop 1]
  else [l]

/-- Go `strings.HasPrefix`. -/
def hasPrefixB (pre s : ByteStr) : Bool := s.take pre.length == pre

/-- The scheme marker checked by authenticateRequest: the exact bytes of
the string "Basic " (capital B, one trailing space). -/
def basicSchemeBytes : ByteStr := strBytes "Basic "

/-- The ProxyServer struct: the configured identity and listen port. -/
structure ProxyServer where
  username : ByteStr
  password : ByteStr
  port : String
  deriving DecidableEq, Repr

/-- An inbound request: method, URL string, Host (the CONNECT authority),
header map and body stream contents. -/
structure Request where
  method : String
  url : String
  host : String
  headers : HeaderMap
  body : ByteStr
  deriving DecidableEq, Repr

/-- Body of authenticateRequest after `auth := r.Header.Get(...)`: reject
the empty value, require the "Basic " scheme marker, base64-decode the
remainder (`auth[6:]`), split the payload at the first colon (byte 58) and
compare both parts with the configured identity. -/
def authCheck (ps : ProxyServer) (auth : ByteStr) : Bool :=
  if auth = [] then false
  else if hasPrefixB basicSchemeBytes auth then
    match goBase64Decode (auth.drop 6) with
    | none => false
    | some payload =>
      match splitN2 58 payload with
      | [u, p] => u == ps.username && p == ps.password
      | _ => false
  else false

/-- authenticateRequest from main.go: run the credential check on the
value of the Proxy-Authorization header. -/
def authenticateRequest (ps : ProxyServer) (r : Request) : Bool :=
  authCheck ps (headerGetFirst r.headers "Proxy-Authorization")

/-! ### Lemmas about the header-map and byte-string operations -/

theorem hasPrefixB_iff (pre s : ByteStr) :
    hasPrefixB pre s = true ↔ ∃ rest, s = pre ++ rest := by
  unfold hasPrefixB
  rw [beq_iff_eq]
  constructor
  · intro h
    refine ⟨s.drop pre.length, ?_⟩
    conv_lhs => rw [← List.take_append_drop pre.length s]
    rw [h]
  · rintro ⟨rest, rfl⟩
    exact List.take_left ..

theorem hget_hdel_self (h : HeaderMap) (k : String) : hget (hdel h k) k = none := by
  induction h with
  | nil => rfl
  | cons kv rest ih =>
    obtain ⟨k', vs⟩ := kv
    by_cases hk : k' = k
    · simpa [hdel, hk] using ih
    · simp [hdel, hget, hk, ih]

theorem hget_hdel_ne (h : HeaderMap) (k k' : String) (hne : k ≠ k') :
    hget (hdel h k') k = hget h k := by
  induction h with
  | nil => rfl
  | cons kv rest ih =>
    obtain ⟨k0, vs⟩ := kv
    by_cases hk : k0 = k'
    · subst hk
      simp [hdel, hget, Ne.symm hne, ih]
    · by_cases hk2 : k0 = k
      · subst hk2
        simp [hdel, hget, hne]
      · simp [hdel, hget, hk, hk2, ih]

theorem mem_hdel {h : HeaderMap} {k : String} {kv : String × List ByteStr}
    (hm : kv ∈ hdel h k) : kv ∈ h := by
  induction h with
  | nil => simp [hdel] at hm
  | cons kv0 rest ih =>
    obtain ⟨k0, vs⟩ := kv0
    by_cases hk : k0 = k
    · simp only [hdel, if_pos hk] at hm
      exact List.mem_cons_of_mem _ (ih hm)
    · simp only [hdel, if_neg hk, List.mem_cons] at hm
      rcases hm with rfl | hm
      · exact List.mem_cons_self _ _
      · exact List.mem_cons_of_mem _ (ih hm)

theorem hkeys_hdel_sublist (h : HeaderMap) (k : String) :
    List.Sublist (hkeys (hdel h k)) (hkeys h) := by
  induction h with
  | nil => simp [hdel, hkeys]
  | cons kv rest ih =>
    obtain ⟨k0, vs⟩ := kv
    by_cases hk : k0 = k
    · simp only [hdel, if_pos hk, hkeys, List.map_cons]
      exact ih.trans (List.sublist_cons_self _ _)
    · simp only [hdel, if_neg hk, hkeys, List.map_cons]
      exact ih.cons₂ k0

theorem wellFormed_hdel (h : HeaderMap) (k : String) (hw : wellFormed h) :
    wellFormed (hdel h k) :=
  ⟨List.Nodup.sublist (hkeys_hdel_sublist h k) hw.1,
   fun kv hm => hw.2 kv (mem_hdel hm)⟩

theorem hadd_of_notMem (h : HeaderMap) (k : String) (v : ByteStr)
    (hk : k ∉ hkeys h) : hadd h k v = h ++ [(k, [v])] := by
  induction h with
  | nil => rfl
  | cons kv rest ih =>
    obtain ⟨k0, vs0⟩ := kv
    simp only [hkeys, List.map_cons, List.mem_cons, not_or] at hk
    simp [hadd, Ne.symm hk.1, ih (by simpa [hkeys] using hk.2)]

theorem hadd_append_self (h : HeaderMap) (k : String) (vs : List ByteStr)
    (v : ByteStr) (hk : k ∉ hkeys h) :
    hadd (h ++ [(k, vs)]) k v = h ++ [(k, vs ++ [v])] := by
  induction h with
  | nil => simp [hadd]
  | cons kv rest ih =>
    obtain ⟨k0, vs0⟩ := kv
    simp only [hkeys, List.map_cons, List.mem_cons, not_or] at hk
    simp [hadd, Ne.symm hk.1, ih (by simpa [hkeys] using hk.2)]

theorem addValues_append (h : HeaderMap) (k : String) (acc vs : List ByteStr)
    (hk : k ∉ hkeys h) :
    addValues (h ++ [(k, acc)]) k vs = h ++ [(k, acc ++ vs)] := by
  induction vs generalizing acc with
  | nil => simp [addValues]
  | cons v vs ih =>
    rw [addValues, hadd_append_self h k acc v hk, ih (acc ++ [v])]
    simp

theorem addValues_of_notMem (h : HeaderMap) (k : String) (v : ByteStr)
    (vs : List ByteStr) (hk : k ∉ hkeys h) :
    addValues h k (v :: vs) = h ++ [(k, v :: vs)] := by
  rw [addValues, hadd_of_notMem h k v hk, addValues_append h k [v] vs hk]
  simp

theorem copyHeaders_eq (src : HeaderMap) (dst : HeaderMap)
    (hnd : (hkeys src).Nodup)
    (hne : ∀ kv ∈ src, kv.2 ≠ ([] : List ByteStr))
    (hdisj : ∀ k ∈ hkeys src, k ∉ hkeys dst) :
    copyHeaders src dst = dst ++ src := by
  induction src generalizing dst with
  | nil => simp [copyHeaders]
  | cons kv rest ih =>
    obtain ⟨k, vs⟩ := kv
    obtain ⟨v, vs', rfl⟩ : ∃ v vs', vs = v :: vs' := by
      cases vs with
      | nil => exact absurd rfl (hne (k, []) (List.mem_cons_self _ _))
      | cons v vs' => exact ⟨v, vs', rfl⟩
    have hknd : k ∉ hkeys rest ∧ (hkeys rest).Nodup := by
      simpa [hkeys, List.nodup_cons] using hnd
    rw [copyHeaders, addValues_of_notMem dst k v vs' (hdisj k (by simp [hkeys]))]
    rw [ih (dst ++ [(k, v :: vs')]) hknd.2
        (fun kv hm => hne kv (List.mem_cons_of_mem _ hm)) ?_]
    · simp
    · intro k' hk'
      have hne' : k' ≠ k := fun he => hknd.1 (he ▸ hk')
      have h1 : k' ∉ hkeys dst := by
        refine hdisj k' ?_
        simp only [hkeys, List.map_cons, List.mem_cons]
        exact Or.inr (by simpa [hkeys] using hk')
      intro hcontra
      simp only [hkeys, List.map_append, List.mem_append, List.map_cons,
        List.map_nil, List.mem_singleton] at hcontra
      rcases hcontra with h | h
      · exact h1 (by simpa [hkeys] using h)
      · exact hne' h

theorem copyHeaders_self (src : HeaderMap) (hw : wellFormed src) :
    copyHeaders src [] = src := by
  simpa using copyHeaders_eq src [] hw.1 hw.2 (by simp [hkeys])

theorem drop6_append (rest : ByteStr) :
    (basicSchemeBytes ++ rest).drop 6 = rest := by
  have h6 : basicSchemeBytes.length = 6 := by decide
  rw [← h6]
  exact List.drop_left _ _

theorem authCheck_eq_true_iff (ps : ProxyServer) (auth : ByteStr) :
    authCheck ps auth = true ↔
      ∃ rest payload,
        auth = basicSchemeBytes ++ rest ∧
        goBase64Decode rest = some payload ∧
        splitN2 58 payload = [ps.username, ps.password] := by
  constructor
  · intro h
    unfold authCheck at h
    by_cases h0 : auth = []
    · rw [if_pos h0] at h
      exact absurd h (by simp)
    · rw [if_neg h0] at h
      by_cases h1 : hasPrefixB basicSchemeBytes auth = true
      · rw [if_pos h1] at h
        obtain ⟨rest, hrest⟩ := (hasPrefixB_iff _ _).mp h1
        subst hrest
        rw [drop6_append] at h
        refine ⟨rest, ?_⟩
        split at h
        · exact absurd h (by simp)
        · rename_i payload hdec
          split at h
          · rename_i u p hsp
            simp only [Bool.and_eq_true, beq_iff_eq] at h
            exact ⟨payload, rfl, hdec, by rw [hsp, h.1, h.2]⟩
          · exact absurd h (by simp)
      · rw [if_neg h1] at h
        exact absurd h (by simp)
  · rintro ⟨rest, payload, rfl, hdec, hsp⟩
    have hne' : basicSchemeBytes ++ rest ≠ [] := by
      intro hc
      exact absurd (congrArg List.length hc) (by simp [basicSchemeBytes, strBytes])
    unfold authCheck
    rw [if_neg hne', if_pos ((hasPrefixB_iff _ _).mpr ⟨rest, rfl⟩)]
    rw [drop6_append, hdec]
    simp [hsp]

theorem authenticateRequest_eq_true_iff (ps : ProxyServer) (r : Request) :
    authenticateRequest ps r = true ↔
      ∃ rest payload,
        headerGetFirst r.headers "Proxy-Authorization" = basicSchemeBytes ++ rest ∧
        goBase64Decode rest = some payload ∧
        splitN2 58 payload = [ps.username, ps.password] :=
  authCheck_eq_true_iff ps (headerGetFirst r.headers "Proxy-Authorization")

/-! ### Client-observable responses and the two relay handlers

The net/http ResponseWriter writes the status line once: the first
WriteHeader call fixes the status and snapshots the header map; a later
WriteHeader call is ignored (logged as superfluous) and later header-map
mutations have no wire effect.  `Wire` is what the client observes:
the one status, the headers snapshotted at that moment, and every byte
written afterwards. -/

structure Wire where
  status : Nat
  headers : HeaderMap
  body : ByteStr
  deriving DecidableEq, Repr

/-- Go `http.Error(w, msg, code)` on a writer whose status is not yet
written and whose header map is `hdrs`: it deletes Content-Length, sets
Content-Type and X-Content-Type-Options, writes the status and the
message followed by a newline (byte 10). -/
def httpError (hdrs : HeaderMap) (msg : String) (code : Nat) : Wire :=
  { status := code
    headers := hset (hset (hdel hdrs "Content-Length")
        "Content-Type" (strBytes "text/plain; charset=utf-8"))
        "X-Content-Type-Options" (strBytes "nosniff")
    body := strBytes msg ++ [10] }

/-- The authentication-failure response both handlers produce: the
Proxy-Authenticate challenge header naming the realm is set, then
http.Error sends 407 with the plain diagnostic body. -/
def authFailWire : Wire :=
  httpError (hset [] "Proxy-Authenticate" (strBytes "Basic realm=\"Proxy Server\""))
    "Proxy Authentication Required" 407

/-- The upstream response handed back by `client.Do`. -/
structure UpstreamResp where
  status : Nat
  headers : HeaderMap
  body : ByteStr
  deriving DecidableEq, Repr

/-- Oracle for the plain relay's environment: whether http.NewRequest
succeeds, what client.Do returns (none is a network/DNS/timeout error),
and whether io.Copy of the response body fails mid-stream after n bytes. -/
structure PlainOracle where
  newRequestOk : Bool
  doResult : Option UpstreamResp
  copyErrAt : Option Nat
  deriving DecidableEq, Repr

/-- The outbound request handed to client.Do. -/
structure OutboundReq where
  method : String
  url : String
  headers : HeaderMap
  body : ByteStr
  deriving DecidableEq, Repr

/-- Outcome of handleHTTP: the client-observable response, the list of
outbound requests attempted, each with the client timeout in seconds it
was issued under, and whether a mid-stream copy failure was logged. -/
structure HttpOutcome where
  wire : Wire
  doAttempts : List (OutboundReq × Nat)
  streamErrLogged : Bool
  deriving DecidableEq, Repr

/-- handleHTTP from main.go.  Unauthenticated requests get the 407
challenge and nothing is attempted outbound.  Otherwise the two proxy
headers are deleted, the outbound request is built with the same method,
URL and body and the remaining headers copied over, and it is issued once
through a client with a 30-second timeout.  client.Do failure maps to 502;
on success the upstream headers are copied to the writer, the upstream
status is written, and the body is streamed; a mid-stream failure is only
logged. -/
def handleHTTP (ps : ProxyServer) (r : Request) (net : PlainOracle) : HttpOutcome :=
  if authenticateRequest ps r then
    let hdrs := hdel (hdel r.headers "Proxy-Authorization") "Proxy-Connection"
    if net.newRequestOk then
      let proxyReq : OutboundReq :=
        { method := r.method, url := r.url
          headers := copyHeaders hdrs [], body := r.body }
      match net.doResult with
      | none =>
          { wire := httpError [] "Error making proxy request" 502
            doAttempts := [(proxyReq, 30)], streamErrLogged := false }
      | some resp =>
          let copied := match net.copyErrAt with
            | none => resp.body
            | some n => resp.body.take n
          { wire := { status := resp.status
                      headers := copyHeaders resp.headers []
                      body := copied }
            doAttempts := [(proxyReq, 30)]
            streamErrLogged := net.copyErrAt.isSome }
    else
      { wire := httpError [] "Error creating proxy request" 500
        doAttempts := [], streamErrLogged := false }
  else
    { wire := authFailWire, doAttempts := [], streamErrLogged := false }

/-- Oracle for the tunnel relay's environment: whether the TCP dial
succeeds, whether the ResponseWriter supports hijacking, and whether the
Hijack call itself succeeds. -/
structure TunnelOracle where
  dialOk : Bool
  hijackSupported : Bool
  hijackOk : Bool
  deriving DecidableEq, Repr

/-- Ordered events of one handleHTTPS run. -/
inductive TEvent where
  | dialAttempt (host : String) (timeoutSecs : Nat)
  | wroteStatus (code : Nat)
  | superfluousStatus (code : Nat)
  | hijackCheck (supported : Bool)
  | hijackInvoke
  | tunnelStart
  deriving DecidableEq, Repr

/-- Outcome of handleHTTPS: the client-observable response, the event
trace, the dial attempts with their timeout in seconds, whether Hijack was
invoked, whether the bidirectional tunnel was started, and whether the
destination connection (when one was opened) was closed again. -/
structure TunnelOutcome where
  wire : Wire
  events : List TEvent
  dialAttempts : List (String × Nat)
  hijackInvoked : Bool
  tunnelStarted : Bool
  destConnOpened : Bool
  destConnClosed : Bool
  deriving DecidableEq, Repr

/-- handleHTTPS from main.go.  Unauthenticated requests get the 407
challenge and no dial happens.  Otherwise r.Host is dialled once with a
30-second timeout; failure maps to 502.  On dial success the 200 status is
written FIRST, then the hijack capability is checked; the http.Error calls
in the two hijack-failure branches can no longer change the wire status
(their WriteHeader(500) is superfluous), only their diagnostic body is
appended.  On hijack success the raw tunnel is started. -/
def handleHTTPS (ps : ProxyServer) (r : Request) (net : TunnelOracle) : TunnelOutcome :=
  if authenticateRequest ps r then
    if net.dialOk then
      if net.hijackSupported then
        if net.hijackOk then
          { wire := { status := 200, headers := [], body := [] }
            events := [.dialAttempt r.host 30, .wroteStatus 200,
                       .hijackCheck true, .hijackInvoke, .tunnelStart]
            dialAttempts := [(r.host, 30)]
            hijackInvoked := true, tunnelStarted := true
            destConnOpened := true, destConnClosed := true }
        else
          { wire := { status := 200, headers := []
                      body := strBytes "Error hijacking connection" ++ [10] }
            events := [.dialAttempt r.host 30, .wroteStatus 200,
                       .hijackCheck true, .hijackInvoke, .superfluousStatus 500]
            dialAttempts := [(r.host, 30)]
            hijackInvoked := true, tunnelStarted := false
            destConnOpened := true, destConnClosed := true }
      else
        { wire := { status := 200, headers := []
                    body := strBytes "Hijacking not supported" ++ [10] }
          events := [.dialAttempt r.host 30, .wroteStatus 200,
                     .hijackCheck false, .superfluousStatus 500]
          dialAttempts := [(r.host, 30)]
          hijackInvoked := false, tunnelStarted := false
          destConnOpened := true, destConnClosed := true }
    else
      { wire := httpError [] "Error connecting to destination" 502
        events := [.dialAttempt r.host 30]
        dialAttempts := [(r.host, 30)]
        hijackInvoked := false, tunnelStarted := false
        destConnOpened := false, destConnClosed := false }
  else
    { wire := authFailWire, events := [], dialAttempts := []
      hijackInvoked := false, tunnelStarted := false
      destConnOpened := false, destConnClosed := false }

/-- Outcome of the dispatcher: which relay ran and its outcome. -/
inductive ServeOutcome where
  | plainOut (o : HttpOutcome)
  | tunnelOut (o : TunnelOutcome)
  deriving DecidableEq, Repr

/-- ServeHTTP from main.go: CONNECT routes to the tunnel relay, every
other method to the plain relay. -/
def ServeHTTP (ps : ProxyServer) (r : Request)
    (pnet : PlainOracle) (tnet : TunnelOracle) : ServeOutcome :=
  if r.method = "CONNECT" then .tunnelOut (handleHTTPS ps r tnet)
  else .plainOut (handleHTTP ps r pnet)

/-- Client-observable response of a dispatcher outcome. -/
def serveWire : ServeOutcome → Wire
  | .plainOut o => o.wire
  | .tunnelOut o => o.wire

/-- Outbound HTTP requests attempted by a dispatcher outcome. -/
def serveDoAttempts : ServeOutcome → List (OutboundReq × Nat)
  | .plainOut o => o.doAttempts
  | .tunnelOut _ => []

/-- TCP dials attempted by a dispatcher outcome. -/
def serveDialAttempts : ServeOutcome → List (String × Nat)
  | .plainOut _ => []
  | .tunnelOut o => o.dialAttempts

/-! ### The established tunnel session (lines 150-157 of main.go)

After a successful hijack, handleHTTPS spawns a goroutine running
`io.Copy(destConn, clientConn)` guarded by deferred closes of BOTH
connections, and itself runs `io.Copy(clientConn, destConn)`; when that
copy returns, handleHTTPS returns and its deferred `clientConn.Close()`
and `destConn.Close()` run, again closing BOTH connections.  The session
is modelled as a transition system: a step is one copy direction
observing end-of-stream or an I/O error and finishing, which closes both
endpoints of the pipe; a copy blocked on I/O can always be unblocked this
way, and a copy on a closed endpoint errors out, so a state where a unit
is still running always has a step for that unit. -/

structure TunnelState where
  clientOpen : Bool
  destOpen : Bool
  clientToDestDone : Bool
  destToClientDone : Bool
  deriving DecidableEq, Repr

/-- Session state right after both copy directions have started. -/
def tunnelInit : TunnelState :=
  { clientOpen := true, destOpen := true
    clientToDestDone := false, destToClientDone := false }

/-- Terminal state: both endpoints closed, no copy unit still running. -/
def tunnelDone : TunnelState :=
  { clientOpen := false, destOpen := false
    clientToDestDone := true, destToClientDone := true }

/-- One scheduling step: a still-running copy direction observes
end-of-stream or an I/O error, finishes, and its (deferred) Close calls
close both endpoints of the pipe. -/
inductive TunnelStep : TunnelState → TunnelState → Prop where
  | clientToDestFinish (s : TunnelState) (h : s.clientToDestDone = false) :
      TunnelStep s { clientOpen := false, destOpen := false
                     clientToDestDone := true
                     destToClientDone := s.destToClientDone }
  | destToClientFinish (s : TunnelState) (h : s.destToClientDone = false) :
      TunnelStep s { clientOpen := false, destOpen := false
                     clientToDestDone := s.clientToDestDone
                     destToClientDone := true }

/-- States reachable in a session that started with both directions live. -/
def tunnelReachable (s : TunnelState) : Prop :=
  Relation.ReflTransGen TunnelStep tunnelInit s

theorem tunnel_closed_of_done (s : TunnelState) (hr : tunnelReachable s)
    (hd : s.clientToDestDone = true ∨ s.destToClientDone = true) :
    s.clientOpen = false ∧ s.destOpen = false := by
  induction hr with
  | refl => rcases hd with h | h <;> simp [tunnelInit] at h
  | tail hab hbc ih =>
    cases hbc with
    | clientToDestFinish h => exact ⟨rfl, rfl⟩
    | destToClientFinish h => exact ⟨rfl, rfl⟩

theorem tunnel_reaches_done (s : TunnelState) (hr : tunnelReachable s) :
    Relation.ReflTransGen TunnelStep s tunnelDone := by
  obtain ⟨co, dop, cd, dc⟩ := s
  cases cd with
  | false =>
    cases dc with
    | false =>
      exact .head (TunnelStep.clientToDestFinish _ rfl)
        (.head (TunnelStep.destToClientFinish _ rfl) .refl)
    | true => exact .head (TunnelStep.clientToDestFinish _ rfl) .refl
  | true =>
    cases dc with
    | false => exact .head (TunnelStep.destToClientFinish _ rfl) .refl
    | true =>
      have h := tunnel_closed_of_done _ hr (Or.inl rfl)
      cases co with
      | false =>
        cases dop with
        | false => exact .refl
        | true => exact absurd h.2 (by simp)
      | true => exact absurd h.1 (by simp)

theorem tunnel_stuck_iff_done (s : TunnelState) (hr : tunnelReachable s)
    (hstuck : ∀ s', ¬ TunnelStep s s') : s = tunnelDone := by
  obtain ⟨co, dop, cd, dc⟩ := s
  cases cd with
  | false => exact absurd (TunnelStep.clientToDestFinish _ rfl) (hstuck _)
  | true =>
    cases dc with
    | false => exact absurd (TunnelStep.destToClientFinish _ rfl) (hstuck _)
    | true =>
      have h := tunnel_closed_of_done _ hr (Or.inl rfl)
      cases co with
      | false =>
        cases dop with
        | false => rfl
        | true => exact absurd h.2 (by simp)
      | true => exact absurd h.1 (by simp)

/-! ### Concrete inputs used by the witness theorems -/

/-- The default configured identity (admin / password123). -/
def psDefault : ProxyServer :=
  { username := strBytes "admin", password := strBytes "password123"
    port := "8080" }

/-- An authenticated GET request carrying a custom header and both
proxy-only headers ("YWRtaW46cGFzc3dvcmQxMjM=" encodes admin:password123). -/
def reqGetGood : Request :=
  { method := "GET", url := "http://example.com/", host := "example.com"
    headers := [("Proxy-Authorization", [strBytes "Basic YWRtaW46cGFzc3dvcmQxMjM="]),
                ("Proxy-Connection", [strBytes "keep-alive"]),
                ("Custom-Header", [strBytes "CustomValue"])]
    body := strBytes "hello" }

/-- An authenticated CONNECT request. -/
def reqConnectGood : Request :=
  { method := "CONNECT", url := "//example.com:443", host := "example.com:443"
    headers := [("Proxy-Authorization", [strBytes "Basic YWRtaW46cGFzc3dvcmQxMjM="])]
    body := [] }

/-- A GET request with no credential header at all. -/
def reqNoAuth : Request :=
  { method := "GET", url := "http://example.com/", host := "example.com"
    headers := [], body := [] }

/-- A CONNECT request with a wrong password
("YWRtaW46d3Jvbmc=" encodes admin:wrong). -/
def reqBadAuth : Request :=
  { method := "CONNECT", url := "//example.com:443", host := "example.com:443"
    headers := [("Proxy-Authorization", [strBytes "Basic YWRtaW46d3Jvbmc="])]
    body := [] }

/-- A request whose scheme marker is lowercase "basic " but whose base64
part encodes the correct configured pair. -/
def reqLowerScheme : Request :=
  { method := "GET", url := "http://example.com/", host := "example.com"
    headers := [("Proxy-Authorization", [strBytes "basic YWRtaW46cGFzc3dvcmQxMjM="])]
    body := [] }

/-- A concrete upstream response. -/
def upOK : UpstreamResp :=
  { status := 201
    headers := [("Content-Type", [strBytes "text/plain"]),
                ("X-Test-Backend", [strBytes "true"])]
    body := strBytes "Backend response" }

/-- Plain-relay oracle: everything succeeds. -/
def pnetOK : PlainOracle :=
  { newRequestOk := true, doResult := some upOK, copyErrAt := none }

/-- Plain-relay oracle: mid-stream copy failure after 7 bytes. -/
def pnetErrBody : PlainOracle :=
  { newRequestOk := true, doResult := some upOK, copyErrAt := some 7 }

/-- Plain-relay oracle: client.Do fails (network/DNS error or timeout). -/
def pnetDoFail : PlainOracle :=
  { newRequestOk := true, doResult := none, copyErrAt := none }

/-- Tunnel oracle: dial and hijack both succeed. -/
def tnetOK : TunnelOracle :=
  { dialOk := true, hijackSupported := true, hijackOk := true }

/-- Tunnel oracle: the dial fails. -/
def tnetDialFail : TunnelOracle :=
  { dialOk := false, hijackSupported := true, hijackOk := true }

/-- Tunnel oracle: dial succeeds but the writer is no http.Hijacker. -/
def tnetNoHijack : TunnelOracle :=
  { dialOk := true, hijackSupported := false, hijackOk := true }

/-! ### Claim theorems -/

/-- C1: authenticateRequest returns true iff the Proxy-Authorization
header value is the "Basic " scheme marker followed by a string that
base64-decodes successfully and whose decoded payload, split at the first
colon only (strings.SplitN with limit 2), yields exactly the configured
username and password byte-for-byte; every other shape of header (absent,
wrong scheme, invalid base64, no separator, mismatching pair) yields
false, and a payload like admin:pa:ss splits into admin and pa:ss. -/
theorem C1_authenticate_characterization :
    (∀ (ps : ProxyServer) (r : Request),
       authenticateRequest ps r = true ↔
         ∃ rest payload,
           headerGetFirst r.headers "Proxy-Authorization" = basicSchemeBytes ++ rest ∧
           goBase64Decode rest = some payload ∧
           splitN2 58 payload = [ps.username, ps.password]) ∧
    splitN2 58 (strBytes "admin:pa:ss") = [strBytes "admin", strBytes "pa:ss"] :=
  ⟨fun ps r => authenticateRequest_eq_true_iff ps r, by decide⟩

/-- C10: the scheme check is strings.HasPrefix with the exact bytes
"Basic " (case-sensitive, one trailing space): whenever the header value
does not start with exactly those bytes, authenticateRequest is false. -/
theorem C10_scheme_marker_exact (ps : ProxyServer) (r : Request)
    (h : hasPrefixB basicSchemeBytes
          (headerGetFirst r.headers "Proxy-Authorization") = false) :
    authenticateRequest ps r = false := by
  unfold authenticateRequest authCheck
  split
  · rfl
  · rw [h]
    rfl

/-- C10 witness: a lowercase "basic " scheme with the correct encoded
pair fails the check and is rejected. -/
theorem C10_witness :
    hasPrefixB basicSchemeBytes
      (headerGetFirst reqLowerScheme.headers "Proxy-Authorization") = false ∧
    authenticateRequest psDefault reqLowerScheme = false :=
  ⟨by decide, C10_scheme_marker_exact psDefault reqLowerScheme (by decide)⟩

/-- C2: whatever the method, when authentication fails the dispatcher's
relay answers 407 with the Proxy-Authenticate challenge naming the realm
and the plain diagnostic body, and attempts no outbound request and no
dial. -/
theorem C2_unauthenticated_short_circuit (ps : ProxyServer) (r : Request)
    (pnet : PlainOracle) (tnet : TunnelOracle)
    (h : authenticateRequest ps r = false) :
    serveWire (ServeHTTP ps r pnet tnet) = authFailWire ∧
    authFailWire.status = 407 ∧
    hget authFailWire.headers "Proxy-Authenticate" =
      some [strBytes "Basic realm=\"Proxy Server\""] ∧
    authFailWire.body = strBytes "Proxy Authentication Required" ++ [10] ∧
    serveDoAttempts (ServeHTTP ps r pnet tnet) = [] ∧
    serveDialAttempts (ServeHTTP ps r pnet tnet) = [] := by
  refine ⟨?_, by decide, by decide, by decide, ?_, ?_⟩ <;>
    unfold ServeHTTP <;>
    by_cases hm : r.method = "CONNECT" <;>
      simp [hm, handleHTTP, handleHTTPS, h, serveWire, serveDoAttempts,
        serveDialAttempts]

/-- C2 witness: a GET request without credentials gets the 407 challenge
and nothing goes outbound. -/
theorem C2_witness :
    authenticateRequest psDefault reqNoAuth = false ∧
    (serveWire (ServeHTTP psDefault reqNoAuth pnetOK tnetOK) = authFailWire ∧
     authFailWire.status = 407 ∧
     hget authFailWire.headers "Proxy-Authenticate" =
       some [strBytes "Basic realm=\"Proxy Server\""] ∧
     authFailWire.body = strBytes "Proxy Authentication Required" ++ [10] ∧
     serveDoAttempts (ServeHTTP psDefault reqNoAuth pnetOK tnetOK) = [] ∧
     serveDialAttempts (ServeHTTP psDefault reqNoAuth pnetOK tnetOK) = []) :=
  ⟨by decide,
   C2_unauthenticated_short_circuit psDefault reqNoAuth pnetOK tnetOK (by decide)⟩

/-- C8: any two requests rejected by the authenticator, whatever the
stage that failed, get the same boolean and byte-identical client
responses, on the plain relay, on the tunnel relay, and even across the
two relays. -/
theorem C8_auth_failures_indistinguishable (ps : ProxyServer) (r1 r2 : Request)
    (pnet1 pnet2 : PlainOracle) (tnet1 tnet2 : TunnelOracle)
    (h1 : authenticateRequest ps r1 = false)
    (h2 : authenticateRequest ps r2 = false) :
    authenticateRequest ps r1 = authenticateRequest ps r2 ∧
    (handleHTTP ps r1 pnet1).wire = (handleHTTP ps r2 pnet2).wire ∧
    (handleHTTPS ps r1 tnet1).wire = (handleHTTPS ps r2 tnet2).wire ∧
    (handleHTTP ps r1 pnet1).wire = (handleHTTPS ps r1 tnet1).wire := by
  refine ⟨by rw [h1, h2], ?_, ?_, ?_⟩ <;>
    simp [handleHTTP, handleHTTPS, h1, h2]

/-- C8 witness: an absent header and a wrong password produce identical
observable responses. -/
theorem C8_witness :
    authenticateRequest psDefault reqNoAuth = false ∧
    authenticateRequest psDefault reqBadAuth = false ∧
    (authenticateRequest psDefault reqNoAuth = authenticateRequest psDefault reqBadAuth ∧
     (handleHTTP psDefault reqNoAuth pnetOK).wire =
       (handleHTTP psDefault reqBadAuth pnetDoFail).wire ∧
     (handleHTTPS psDefault reqNoAuth tnetOK).wire =
       (handleHTTPS psDefault reqBadAuth tnetDialFail).wire ∧
     (handleHTTP psDefault reqNoAuth pnetOK).wire =
       (handleHTTPS psDefault reqNoAuth tnetOK).wire) :=
  ⟨by decide, by decide,
   C8_auth_failures_indistinguishable psDefault reqNoAuth reqBadAuth
     pnetOK pnetDoFail tnetOK tnetDialFail (by decide) (by decide)⟩

/-- C3: on an authenticated plain-relay request whose outbound request can
be constructed, exactly one outbound request is attempted; it has the
inbound method, full target URL and body passed through, its header map is
the inbound one with exactly Proxy-Authorization and Proxy-Connection
deleted, and every other key keeps its full value list (multiplicity and
order). -/
theorem C3_outbound_request_shape (ps : ProxyServer) (r : Request)
    (net : PlainOracle)
    (hauth : authenticateRequest ps r = true)
    (hok : net.newRequestOk = true)
    (hw : wellFormed r.headers) :
    ∃ req : OutboundReq,
      (handleHTTP ps r net).doAttempts.map Prod.fst = [req] ∧
      req.method = r.method ∧ req.url = r.url ∧ req.body = r.body ∧
      req.headers = hdel (hdel r.headers "Proxy-Authorization") "Proxy-Connection" ∧
      hget req.headers "Proxy-Authorization" = none ∧
      hget req.headers "Proxy-Connection" = none ∧
      ∀ k : String, k ≠ "Proxy-Authorization" → k ≠ "Proxy-Connection" →
        hget req.headers k = hget r.headers k := by
  have hch : copyHeaders (hdel (hdel r.headers "Proxy-Authorization")
        "Proxy-Connection") [] =
      hdel (hdel r.headers "Proxy-Authorization") "Proxy-Connection" :=
    copyHeaders_self _ (wellFormed_hdel _ _ (wellFormed_hdel _ _ hw))
  refine ⟨{ method := r.method, url := r.url
            headers := hdel (hdel r.headers "Proxy-Authorization") "Proxy-Connection"
            body := r.body }, ?_, rfl, rfl, rfl, rfl, ?_, ?_, ?_⟩
  · cases hdo : net.doResult with
    | none => simp [handleHTTP, hauth, hok, hdo, hch]
    | some resp => simp [handleHTTP, hauth, hok, hdo, hch]
  · rw [hget_hdel_ne _ _ _ (by decide)]
    exact hget_hdel_self _ _
  · exact hget_hdel_self _ _
  · intro k hk1 hk2
    rw [hget_hdel_ne _ _ _ hk2, hget_hdel_ne _ _ _ hk1]

/-- C3 witness: the authenticated GET request with a custom header. -/
theorem C3_witness :
    authenticateRequest psDefault reqGetGood = true ∧
    pnetOK.newRequestOk = true ∧
    wellFormed reqGetGood.headers ∧
    (∃ req : OutboundReq,
      (handleHTTP psDefault reqGetGood pnetOK).doAttempts.map Prod.fst = [req] ∧
      req.method = reqGetGood.method ∧ req.url = reqGetGood.url ∧
      req.body = reqGetGood.body ∧
      req.headers =
        hdel (hdel reqGetGood.headers "Proxy-Authorization") "Proxy-Connection" ∧
      hget req.headers "Proxy-Authorization" = none ∧
      hget req.headers "Proxy-Connection" = none ∧
      ∀ k : String, k ≠ "Proxy-Authorization" → k ≠ "Proxy-Connection" →
        hget req.headers k = hget reqGetGood.headers k) :=
  ⟨by decide, by decide, by decide,
   C3_outbound_request_shape psDefault reqGetGood pnetOK
     (by decide) (by decide) (by decide)⟩

/-- C4: on an authenticated plain-relay request whose outbound request
succeeds, the client gets the upstream's exact status and exactly the
upstream response headers (full per-key value lists, multiplicity and
order kept); without a mid-stream failure the body arrives byte-for-byte,
and a mid-stream failure after n bytes is only logged: the client has the
prefix of the body and the already-sent status is unchanged. -/
theorem C4_response_passthrough (ps : ProxyServer) (r : Request)
    (net : PlainOracle) (resp : UpstreamResp)
    (hauth : authenticateRequest ps r = true)
    (hok : net.newRequestOk = true)
    (hdo : net.doResult = some resp)
    (hw : wellFormed resp.headers) :
    (handleHTTP ps r net).wire.status = resp.status ∧
    (handleHTTP ps r net).wire.headers = resp.headers ∧
    (net.copyErrAt = none →
      (handleHTTP ps r net).wire.body = resp.body ∧
      (handleHTTP ps r net).streamErrLogged = false) ∧
    ∀ n : Nat, net.copyErrAt = some n →
      (handleHTTP ps r net).wire.body = resp.body.take n ∧
      (handleHTTP ps r net).streamErrLogged = true ∧
      (handleHTTP ps r net).wire.status = resp.status := by
  have hch := copyHeaders_self resp.headers hw
  refine ⟨?_, ?_, ?_, ?_⟩
  · simp [handleHTTP, hauth, hok, hdo]
  · simp [handleHTTP, hauth, hok, hdo, hch]
  · intro hc
    simp [handleHTTP, hauth, hok, hdo, hc]
  · intro n hc
    simp [handleHTTP, hauth, hok, hdo, hc]

/-- C4 witness: concrete upstream response relayed whole, and the same
run with a copy failure after 7 bytes keeps the status and truncates. -/
theorem C4_witness :
    (authenticateRequest psDefault reqGetGood = true ∧
     pnetOK.newRequestOk = true ∧
     pnetOK.doResult = some upOK ∧
     wellFormed upOK.headers ∧
     (handleHTTP psDefault reqGetGood pnetOK).wire.status = upOK.status ∧
     (handleHTTP psDefault reqGetGood pnetOK).wire.headers = upOK.headers) ∧
    (pnetErrBody.copyErrAt = some 7 ∧
     (handleHTTP psDefault reqGetGood pnetErrBody).wire.body = upOK.body.take 7 ∧
     (handleHTTP psDefault reqGetGood pnetErrBody).streamErrLogged = true ∧
     (handleHTTP psDefault reqGetGood pnetErrBody).wire.status = upOK.status) :=
  ⟨⟨by decide, by decide, by decide, by decide,
    (C4_response_passthrough psDefault reqGetGood pnetOK upOK
      (by decide) (by decide) (by decide) (by decide)).1,
    (C4_response_passthrough psDefault reqGetGood pnetOK upOK
      (by decide) (by decide) (by decide) (by decide)).2.1⟩,
   ⟨by decide,
    (C4_response_passthrough psDefault reqGetGood pnetErrBody upOK
      (by decide) (by decide) (by decide) (by decide)).2.2.2 7 (by decide)⟩⟩

/-- C6: with valid credentials, a failing outbound request (network/DNS
error or expiry of the 30-second client timeout) yields the 502
bad-gateway diagnostic with exactly one outbound attempt, issued under the
30-second timeout; a failing tunnel dial yields 502 from exactly one dial
of r.Host under the 30-second timeout, with no hijack and no tunnel. -/
theorem C6_bad_gateway (ps : ProxyServer) (r : Request)
    (pnet : PlainOracle) (tnet : TunnelOracle)
    (hauth : authenticateRequest ps r = true)
    (hok : pnet.newRequestOk = true)
    (hdo : pnet.doResult = none)
    (hdial : tnet.dialOk = false) :
    (handleHTTP ps r pnet).wire = httpError [] "Error making proxy request" 502 ∧
    (handleHTTP ps r pnet).wire.status = 502 ∧
    (handleHTTP ps r pnet).doAttempts.length = 1 ∧
    (∀ a ∈ (handleHTTP ps r pnet).doAttempts, a.2 = 30) ∧
    (handleHTTPS ps r tnet).wire = httpError [] "Error connecting to destination" 502 ∧
    (handleHTTPS ps r tnet).wire.status = 502 ∧
    (handleHTTPS ps r tnet).dialAttempts = [(r.host, 30)] ∧
    (handleHTTPS ps r tnet).hijackInvoked = false ∧
    (handleHTTPS ps r tnet).tunnelStarted = false := by
  refine ⟨?_, ?_, ?_, ?_, ?_, ?_, ?_, ?_, ?_⟩ <;>
    simp [handleHTTP, handleHTTPS, hauth, hok, hdo, hdial, httpError]

/-- C6 witness: the authenticated CONNECT request against a failing Do
oracle and a failing dial oracle. -/
theorem C6_witness :
    authenticateRequest psDefault reqConnectGood = true ∧
    pnetDoFail.newRequestOk = true ∧
    pnetDoFail.doResult = none ∧
    tnetDialFail.dialOk = false ∧
    ((handleHTTP psDefault reqConnectGood pnetDoFail).wire =
       httpError [] "Error making proxy request" 502 ∧
     (handleHTTP psDefault reqConnectGood pnetDoFail).wire.status = 502 ∧
     (handleHTTP psDefault reqConnectGood pnetDoFail).doAttempts.length = 1 ∧
     (∀ a ∈ (handleHTTP psDefault reqConnectGood pnetDoFail).doAttempts, a.2 = 30) ∧
     (handleHTTPS psDefault reqConnectGood tnetDialFail).wire =
       httpError [] "Error connecting to destination" 502 ∧
     (handleHTTPS psDefault reqConnectGood tnetDialFail).wire.status = 502 ∧
     (handleHTTPS psDefault reqConnectGood tnetDialFail).dialAttempts =
       [(reqConnectGood.host, 30)] ∧
     (handleHTTPS psDefault reqConnectGood tnetDialFail).hijackInvoked = false ∧
     (handleHTTPS psDefault reqConnectGood tnetDialFail).tunnelStarted = false) :=
  ⟨by decide, by decide, by decide, by decide,
   C6_bad_gateway psDefault reqConnectGood pnetDoFail tnetDialFail
     (by decide) (by decide) (by decide) (by decide)⟩

/-- C7 counterexample: an authenticated CONNECT whose dial succeeds but
whose transport cannot hijack.  The claim says the internal-error status
is surfaced to the client, but w.WriteHeader(200) has already run, so the
http.Error's WriteHeader(500) is superfluous and the status the client
observes is 200, not 500. -/
theorem C7_counterexample :
    (handleHTTPS psDefault reqConnectGood tnetNoHijack).wire.status = 200 ∧
    ¬ (handleHTTPS psDefault reqConnectGood tnetNoHijack).wire.status = 500 := by
  decide

/-- C7 (amended): when the transport cannot support takeover, the tunnel
relay invokes the internal-error path (the superfluous WriteHeader(500)
and the diagnostic body), but the status the client observes remains the
already-written 200; no hijack happens and no tunnel is started. -/
theorem C7_amended_hijack_unsupported (ps : ProxyServer) (r : Request)
    (net : TunnelOracle)
    (hauth : authenticateRequest ps r = true)
    (hdial : net.dialOk = true)
    (hsup : net.hijackSupported = false) :
    (handleHTTPS ps r net).wire.status = 200 ∧
    (handleHTTPS ps r net).wire.body = strBytes "Hijacking not supported" ++ [10] ∧
    TEvent.superfluousStatus 500 ∈ (handleHTTPS ps r net).events ∧
    (handleHTTPS ps r net).hijackInvoked = false ∧
    (handleHTTPS ps r net).tunnelStarted = false := by
  refine ⟨?_, ?_, ?_, ?_, ?_⟩ <;>
    simp [handleHTTPS, hauth, hdial, hsup]

/-- C7 witness for the amended claim. -/
theorem C7_witness :
    authenticateRequest psDefault reqConnectGood = true ∧
    tnetNoHijack.dialOk = true ∧
    tnetNoHijack.hijackSupported = false ∧
    ((handleHTTPS psDefault reqConnectGood tnetNoHijack).wire.status = 200 ∧
     (handleHTTPS psDefault reqConnectGood tnetNoHijack).wire.body =
       strBytes "Hijacking not supported" ++ [10] ∧
     TEvent.superfluousStatus 500 ∈
       (handleHTTPS psDefault reqConnectGood tnetNoHijack).events ∧
     (handleHTTPS psDefault reqConnectGood tnetNoHijack).hijackInvoked = false ∧
     (handleHTTPS psDefault reqConnectGood tnetNoHijack).tunnelStarted = false) :=
  ⟨by decide, by decide, by decide,
   C7_amended_hijack_unsupported psDefault reqConnectGood tnetNoHijack
     (by decide) (by decide) (by decide)⟩

/-- C9: on an authenticated CONNECT whose dial succeeds, the 200 success
status is written to the client strictly before the takeover capability
is checked, and whatever the hijack oracle says afterwards, the status
the client observes is 200. -/
theorem C9_success_status_before_takeover (ps : ProxyServer) (r : Request)
    (net : TunnelOracle)
    (hauth : authenticateRequest ps r = true)
    (hdial : net.dialOk = true) :
    ∃ i j : Nat, i < j ∧
      (handleHTTPS ps r net).events[i]? = some (TEvent.wroteStatus 200) ∧
      (∃ b : Bool, (handleHTTPS ps r net).events[j]? = some (TEvent.hijackCheck b)) ∧
      (handleHTTPS ps r net).wire.status = 200 := by
  refine ⟨1, 2, by decide, ?_, ⟨net.hijackSupported, ?_⟩, ?_⟩ <;>
    cases hs : net.hijackSupported <;> cases ho : net.hijackOk <;>
      simp [handleHTTPS, hauth, hdial, hs, ho]

/-- C9 witness: the fully-successful tunnel oracle. -/
theorem C9_witness :
    authenticateRequest psDefault reqConnectGood = true ∧
    tnetOK.dialOk = true ∧
    (∃ i j : Nat, i < j ∧
      (handleHTTPS psDefault reqConnectGood tnetOK).events[i]? =
        some (TEvent.wroteStatus 200) ∧
      (∃ b : Bool, (handleHTTPS psDefault reqConnectGood tnetOK).events[j]? =
        some (TEvent.hijackCheck b)) ∧
      (handleHTTPS psDefault reqConnectGood tnetOK).wire.status = 200) :=
  ⟨by decide, by decide,
   C9_success_status_before_takeover psDefault reqConnectGood tnetOK
     (by decide) (by decide)⟩

/-- C5: in the tunnel-session transition system, (1) in every reachable
state where either copy direction has finished, both endpoints of the
pipe are closed (no half-open tunnel once one side is done), (2) every
reachable state can continue to the terminal state where both copy units
have finished and both endpoints are closed, and (3) a reachable state
with no step left is exactly that terminal state, so the session only
stops with both ends closed and no execution unit still running. -/
theorem C5_tunnel_close_propagation :
    (∀ s : TunnelState, tunnelReachable s →
       (s.clientToDestDone = true ∨ s.destToClientDone = true) →
       s.clientOpen = false ∧ s.destOpen = false) ∧
    (∀ s : TunnelState, tunnelReachable s →
       Relation.ReflTransGen TunnelStep s tunnelDone) ∧
    (∀ s : TunnelState, tunnelReachable s →
       (∀ s', ¬ TunnelStep s s') → s = tunnelDone) :=
  ⟨tunnel_closed_of_done, tunnel_reaches_done, tunnel_stuck_iff_done⟩

/-- C5 witness: after the client-to-target direction finishes first, both
endpoints are closed, and the terminal state is reachable from the start
of the session. -/
theorem C5_witness :
    ((({ clientOpen := false, destOpen := false
         clientToDestDone := true, destToClientDone := false } :
        TunnelState).clientOpen = false ∧
      ({ clientOpen := false, destOpen := false
         clientToDestDone := true, destToClientDone := false } :
        TunnelState).destOpen = false) ∧
     Relation.ReflTransGen TunnelStep tunnelInit tunnelDone) :=
  ⟨C5_tunnel_close_propagation.1
     { clientOpen := false, destOpen := false
       clientToDestDone := true, destToClientDone := false }
     (Relation.ReflTransGen.single (TunnelStep.clientToDestFinish tunnelInit rfl))
     (Or.inl rfl),
   C5_tunnel_close_propagation.2.1 tunnelInit Relation.ReflTransGen.refl⟩
